import Mathlib

/-!
Verification development for the pg-sweep statistics snapshot collector
(src/lib.rs).  The two entry points `collect_database_stats` and
`collect_table_stats` query PostgreSQL instrumentation views through the
pgrx SPI interface and assemble JSON-serializable snapshot records.

Embedding conventions:
* The SPI interface is external; a call to it is modelled by its response:
  a query either fails to execute (`Except.error`) or yields a list of
  rows.  For the single-value queries a row is the targeted column's
  nullable value (`Option Int` / `Option Rat`); for the per-table query a
  row is a `TableRow` of nullable columns.
* Rust `i64` is `Int` (no arithmetic near the 64-bit boundary occurs),
  `u64` timestamps are `Nat`, and `f64` timing values are `Rat` (they are
  only passed through, never computed with).
* A Rust panic (a failed `.unwrap()`), which aborts the whole SPI
  transaction in pgrx, is modelled as `Except.error`; pgrx's
  `SpiTupleTable::first().get_one()` returns `Err(InvalidPosition)` when
  the result table holds no rows, and `Ok(None)` when the first row's
  value is SQL NULL.
-/

namespace PgSweep

/-- Failure modes surfaced by the modelled SPI layer: a query that cannot
be executed, a positioned read from an empty result table (pgrx
`Error::InvalidPosition`), and a panicking `.unwrap()` of a NULL column
value. -/
inductive SpiError where
  | queryFailed
  | invalidPosition
  | nullField
  deriving Repr, DecidableEq

/-- The database-wide snapshot record (struct `DatabaseStats` in
src/lib.rs, lines 8-29), field for field in declaration order. -/
structure DatabaseStats where
  timestamp : Nat
  total_connections : Int
  active_connections : Int
  idle_connections : Int
  total_transactions : Int
  commits : Int
  rollbacks : Int
  blocks_read : Int
  blocks_hit : Int
  tuples_returned : Int
  tuples_fetched : Int
  tuples_inserted : Int
  tuples_updated : Int
  tuples_deleted : Int
  temp_files : Int
  temp_bytes : Int
  deadlocks : Int
  block_read_time : Rat
  block_write_time : Rat
  deriving Repr, DecidableEq

/-- The per-table snapshot record (struct `TableStats` in src/lib.rs,
lines 181-196), field for field in declaration order. -/
structure TableStats where
  sequential_scans : Int
  sequential_rows_read : Int
  index_scans : Int
  index_rows_fetched : Int
  rows_inserted : Int
  rows_updated : Int
  rows_deleted : Int
  live_rows : Int
  dead_rows : Int
  heap_blocks_read : Int
  heap_blocks_hit : Int
  index_blocks_read : Int
  index_blocks_hit : Int
  deriving Repr, DecidableEq

/-- pgrx `SpiTupleTable::first().get_one()`: positioned at the first row,
an empty table yields `Err(Error::InvalidPosition)`; otherwise the first
row's nullable value is returned. -/
def get_one {α : Type} (rows : List (Option α)) : Except SpiError (Option α) :=
  match rows with
  | [] => Except.error SpiError.invalidPosition
  | v :: _ => Except.ok v

/-- `query_single_value` (src/lib.rs 118-125):
`client.select(query).first().get_one::<i64>().unwrap().unwrap_or(0)`.
The argument is the SPI response to the fixed query: failure to execute,
or the rows of the single targeted column. -/
def query_single_value (resp : Except SpiError (List (Option Int))) :
    Except SpiError Int :=
  match resp with
  | Except.error e => Except.error e
  | Except.ok rows =>
    match get_one rows with
    | Except.error e => Except.error e
    | Except.ok v => Except.ok (v.getD 0)

/-- `query_single_value_float` (src/lib.rs 127-134), identical to
`query_single_value` at type `f64` with default `0.0`. -/
def query_single_value_float (resp : Except SpiError (List (Option Rat))) :
    Except SpiError Rat :=
  match resp with
  | Except.error e => Except.error e
  | Except.ok rows =>
    match get_one rows with
    | Except.error e => Except.error e
    | Except.ok v => Except.ok (v.getD 0)

/-- The sixteen fixed integer-valued query texts issued by
`collect_database_stats`, one constructor per literal SQL string. -/
inductive DbQuery where
  | totalConnections
  | activeConnections
  | idleConnections
  | totalTransactions
  | commits
  | rollbacks
  | blocksRead
  | blocksHit
  | tuplesReturned
  | tuplesFetched
  | tuplesInserted
  | tuplesUpdated
  | tuplesDeleted
  | tempFiles
  | tempBytes
  | deadlocks
  deriving Repr, DecidableEq

/-- The two fixed float-valued query texts (blk_read_time,
blk_write_time). -/
inductive FloatQuery where
  | blockReadTime
  | blockWriteTime
  deriving Repr, DecidableEq

/-- The Instrumentation Source as seen by one invocation of
`collect_database_stats`: for each fixed query, the SPI response it
produces when that query is driven through `client.select`. -/
structure SpiSource where
  intq : DbQuery → Except SpiError (List (Option Int))
  floatq : FloatQuery → Except SpiError (List (Option Rat))

/-- `collect_database_stats` (src/lib.rs 32-116): records the wall clock,
then drives the sixteen integer and two float queries through the scalar
extractor in source order; any extractor failure (a Rust panic inside
`Spi::connect`) aborts the whole build. -/
def collect_database_stats (src : SpiSource) (now : Nat) :
    Except SpiError DatabaseStats := do
  let total_connections ← query_single_value (src.intq DbQuery.totalConnections)
  let active_connections ← query_single_value (src.intq DbQuery.activeConnections)
  let idle_connections ← query_single_value (src.intq DbQuery.idleConnections)
  let total_transactions ← query_single_value (src.intq DbQuery.totalTransactions)
  let commits ← query_single_value (src.intq DbQuery.commits)
  let rollbacks ← query_single_value (src.intq DbQuery.rollbacks)
  let blocks_read ← query_single_value (src.intq DbQuery.blocksRead)
  let blocks_hit ← query_single_value (src.intq DbQuery.blocksHit)
  let tuples_returned ← query_single_value (src.intq DbQuery.tuplesReturned)
  let tuples_fetched ← query_single_value (src.intq DbQuery.tuplesFetched)
  let tuples_inserted ← query_single_value (src.intq DbQuery.tuplesInserted)
  let tuples_updated ← query_single_value (src.intq DbQuery.tuplesUpdated)
  let tuples_deleted ← query_single_value (src.intq DbQuery.tuplesDeleted)
  let temp_files ← query_single_value (src.intq DbQuery.tempFiles)
  let temp_bytes ← query_single_value (src.intq DbQuery.tempBytes)
  let deadlocks ← query_single_value (src.intq DbQuery.deadlocks)
  let block_read_time ← query_single_value_float (src.floatq FloatQuery.blockReadTime)
  let block_write_time ← query_single_value_float (src.floatq FloatQuery.blockWriteTime)
  pure ⟨now, total_connections, active_connections, idle_connections,
    total_transactions, commits, rollbacks, blocks_read, blocks_hit,
    tuples_returned, tuples_fetched, tuples_inserted, tuples_updated,
    tuples_deleted, temp_files, temp_bytes, deadlocks,
    block_read_time, block_write_time⟩

/-- One row of the per-table query over pg_stat_user_tables
(src/lib.rs 142-149): two identifying columns and thirteen counter
columns, all nullable. -/
structure TableRow where
  schemaname : Option String
  relname : Option String
  seq_scan : Option Int
  seq_tup_read : Option Int
  idx_scan : Option Int
  idx_tup_fetch : Option Int
  n_tup_ins : Option Int
  n_tup_upd : Option Int
  n_tup_del : Option Int
  n_live_tup : Option Int
  n_dead_tup : Option Int
  heap_blks_read : Option Int
  heap_blks_hit : Option Int
  idx_blks_read : Option Int
  idx_blks_hit : Option Int
  deriving Repr, DecidableEq

/-- The per-row body of the loop in `collect_table_stats`
(src/lib.rs 154-174): every column is read with
`row.get_by_name(...).unwrap().unwrap()`, so a NULL in any of the fifteen
columns panics (modelled as `SpiError.nullField`); otherwise the
composite key `format!("{}.{}", schema, table)` and the `TableStats`
record are produced. -/
def decodeTableRow (row : TableRow) : Except SpiError (String × TableStats) :=
  match row.schemaname, row.relname, row.seq_scan, row.seq_tup_read,
      row.idx_scan, row.idx_tup_fetch, row.n_tup_ins, row.n_tup_upd,
      row.n_tup_del, row.n_live_tup, row.n_dead_tup, row.heap_blks_read,
      row.heap_blks_hit, row.idx_blks_read, row.idx_blks_hit with
  | some s, some t, some a1, some a2, some a3, some a4, some a5, some a6,
      some a7, some a8, some a9, some a10, some a11, some a12, some a13 =>
    Except.ok (s ++ "." ++ t, ⟨a1, a2, a3, a4, a5, a6, a7, a8, a9, a10, a11, a12, a13⟩)
  | _, _, _, _, _, _, _, _, _, _, _, _, _, _, _ =>
    Except.error SpiError.nullField

/-- `HashMap::insert` on the association-list model of the output map:
replace the entry when the key is present, append otherwise. -/
def insertMap (m : List (String × TableStats)) (k : String) (v : TableStats) :
    List (String × TableStats) :=
  if m.any (fun p => p.1 == k) then
    m.map (fun p => if p.1 == k then (k, v) else p)
  else m ++ [(k, v)]

/-- The `for row in results` loop of `collect_table_stats`: decode each
row in order and insert it under its composite key; the first panic
aborts the whole call. -/
def buildTableMap : List TableRow → List (String × TableStats) →
    Except SpiError (List (String × TableStats))
  | [], m => Except.ok m
  | row :: rest, m =>
    match decodeTableRow row with
    | Except.error e => Except.error e
    | Except.ok (k, v) => buildTableMap rest (insertMap m k v)

/-- `collect_table_stats` (src/lib.rs 136-179): one multi-row query over
pg_stat_user_tables (its SPI response is the argument), then the
row-decoding loop building the keyed map. -/
def collect_table_stats (resp : Except SpiError (List TableRow)) :
    Except SpiError (List (String × TableStats)) :=
  match resp with
  | Except.error e => Except.error e
  | Except.ok rows => buildTableMap rows []

/-! ### SQL semantics of the fixed queries

For claims about what the queries themselves compute (the
`xact_commit + xact_rollback` summation), the Instrumentation Source is
refined one level: a `PgState` is what one query execution observes, and
`evalIntQuery` is the SQL meaning of each fixed query text over it.
Because the eighteen queries run without a shared snapshot, each query
observes its own `PgState`. -/

/-- One row of pg_stat_activity; only the `state` column is consulted by
the fixed queries. -/
structure SessionRow where
  state : Option String
  deriving Repr, DecidableEq

/-- The pg_stat_database row for the current database; every counter is
nullable. -/
structure PgStatDatabaseRow where
  xact_commit : Option Int
  xact_rollback : Option Int
  blks_read : Option Int
  blks_hit : Option Int
  tup_returned : Option Int
  tup_fetched : Option Int
  tup_inserted : Option Int
  tup_updated : Option Int
  tup_deleted : Option Int
  temp_files : Option Int
  temp_bytes : Option Int
  deadlocks : Option Int
  blk_read_time : Option Rat
  blk_write_time : Option Rat
  deriving Repr, DecidableEq

/-- The instrumentation state one query observes: the pg_stat_activity
rows and the pg_stat_database row for `current_database()` (absent when
the view has no row for it). -/
structure PgState where
  activity : List SessionRow
  statDb : Option PgStatDatabaseRow
  deriving Repr, DecidableEq

/-- SQL addition: NULL-propagating. -/
def optAdd : Option Int → Option Int → Option Int
  | some a, some b => some (a + b)
  | _, _ => none

/-- The single-column result rows of a `SELECT c FROM pg_stat_database
WHERE datname = current_database()` query: zero rows when the view lacks
the row, else one row with the selected value. -/
def dbRowSelect (st : PgState) (f : PgStatDatabaseRow → Option Int) :
    List (Option Int) :=
  match st.statDb with
  | none => []
  | some r => [f r]

/-- SQL meaning of each fixed integer query text over an observed state.
`count(*)` always yields exactly one non-NULL row. -/
def evalIntQuery (st : PgState) : DbQuery → List (Option Int)
  | DbQuery.totalConnections => [some (st.activity.length : Int)]
  | DbQuery.activeConnections =>
    [some ((st.activity.filter (fun r => r.state == some "active")).length : Int)]
  | DbQuery.idleConnections =>
    [some ((st.activity.filter (fun r => r.state == some "idle")).length : Int)]
  | DbQuery.totalTransactions =>
    dbRowSelect st (fun r => optAdd r.xact_commit r.xact_rollback)
  | DbQuery.commits => dbRowSelect st (fun r => r.xact_commit)
  | DbQuery.rollbacks => dbRowSelect st (fun r => r.xact_rollback)
  | DbQuery.blocksRead => dbRowSelect st (fun r => r.blks_read)
  | DbQuery.blocksHit => dbRowSelect st (fun r => r.blks_hit)
  | DbQuery.tuplesReturned => dbRowSelect st (fun r => r.tup_returned)
  | DbQuery.tuplesFetched => dbRowSelect st (fun r => r.tup_fetched)
  | DbQuery.tuplesInserted => dbRowSelect st (fun r => r.tup_inserted)
  | DbQuery.tuplesUpdated => dbRowSelect st (fun r => r.tup_updated)
  | DbQuery.tuplesDeleted => dbRowSelect st (fun r => r.tup_deleted)
  | DbQuery.tempFiles => dbRowSelect st (fun r => r.temp_files)
  | DbQuery.tempBytes => dbRowSelect st (fun r => r.temp_bytes)
  | DbQuery.deadlocks => dbRowSelect st (fun r => r.deadlocks)

/-- SQL meaning of the two float query texts. -/
def evalFloatQuery (st : PgState) : FloatQuery → List (Option Rat)
  | FloatQuery.blockReadTime =>
    match st.statDb with
    | none => []
    | some r => [r.blk_read_time]
  | FloatQuery.blockWriteTime =>
    match st.statDb with
    | none => []
    | some r => [r.blk_write_time]

/-- A source whose every query executes successfully and answers with the
SQL meaning of the query over the state that query observes (`obs` /
`obsF` give the per-query observed states, capturing the skew window
between the independent queries). -/
def honestSource (obs : DbQuery → PgState) (obsF : FloatQuery → PgState) :
    SpiSource :=
  ⟨fun q => Except.ok (evalIntQuery (obs q) q),
   fun q => Except.ok (evalFloatQuery (obsF q) q)⟩

/-! ### Snapshot serialization

`#[derive(Serialize)]` with `pgrx::Json` renders each struct as a JSON
object holding every declared field under its declared name, and the
`HashMap<String, TableStats>` as an object keyed by the composite
strings.  The document is modelled structurally. -/

/-- A JSON document: integer and (for the two f64 timings) fractional
numbers, strings, and objects suffice for the snapshot shapes. -/
inductive JValue where
  | jint (n : Int)
  | jrat (q : Rat)
  | jstr (s : String)
  | jobj (fields : List (String × JValue))
  deriving Repr

/-- Whether a document node is a JSON number. -/
def JValue.isNumeric : JValue → Bool
  | JValue.jint _ => true
  | JValue.jrat _ => true
  | _ => false

/-- The field list of an object node. -/
def JValue.objFields : JValue → List (String × JValue)
  | JValue.jobj fs => fs
  | _ => []

/-- Serde rendering of `DatabaseStats`: all 19 fields, declaration order,
declared names. -/
def serializeDatabaseStats (s : DatabaseStats) : JValue :=
  JValue.jobj
    [("timestamp", JValue.jint (s.timestamp : Int)),
     ("total_connections", JValue.jint s.total_connections),
     ("active_connections", JValue.jint s.active_connections),
     ("idle_connections", JValue.jint s.idle_connections),
     ("total_transactions", JValue.jint s.total_transactions),
     ("commits", JValue.jint s.commits),
     ("rollbacks", JValue.jint s.rollbacks),
     ("blocks_read", JValue.jint s.blocks_read),
     ("blocks_hit", JValue.jint s.blocks_hit),
     ("tuples_returned", JValue.jint s.tuples_returned),
     ("tuples_fetched", JValue.jint s.tuples_fetched),
     ("tuples_inserted", JValue.jint s.tuples_inserted),
     ("tuples_updated", JValue.jint s.tuples_updated),
     ("tuples_deleted", JValue.jint s.tuples_deleted),
     ("temp_files", JValue.jint s.temp_files),
     ("temp_bytes", JValue.jint s.temp_bytes),
     ("deadlocks", JValue.jint s.deadlocks),
     ("block_read_time", JValue.jrat s.block_read_time),
     ("block_write_time", JValue.jrat s.block_write_time)]

/-- Serde rendering of `TableStats`: all 13 fields, declaration order,
declared names. -/
def serializeTableStats (t : TableStats) : JValue :=
  JValue.jobj
    [("sequential_scans", JValue.jint t.sequential_scans),
     ("sequential_rows_read", JValue.jint t.sequential_rows_read),
     ("index_scans", JValue.jint t.index_scans),
     ("index_rows_fetched", JValue.jint t.index_rows_fetched),
     ("rows_inserted", JValue.jint t.rows_inserted),
     ("rows_updated", JValue.jint t.rows_updated),
     ("rows_deleted", JValue.jint t.rows_deleted),
     ("live_rows", JValue.jint t.live_rows),
     ("dead_rows", JValue.jint t.dead_rows),
     ("heap_blocks_read", JValue.jint t.heap_blocks_read),
     ("heap_blocks_hit", JValue.jint t.heap_blocks_hit),
     ("index_blocks_read", JValue.jint t.index_blocks_read),
     ("index_blocks_hit", JValue.jint t.index_blocks_hit)]

/-- Serde rendering of the table map: one object member per entry, keyed
by the composite string. -/
def serializeTableMap (m : List (String × TableStats)) : JValue :=
  JValue.jobj (m.map (fun p => (p.1, serializeTableStats p.2)))

/-- Fetch a member of an object field list and require it to be an
integer number. -/
def getIntField (fs : List (String × JValue)) (k : String) : Option Int :=
  match fs.lookup k with
  | some (JValue.jint n) => some n
  | _ => none

/-- Modelled from the spec: the repository has no deserializer (the
round-trip property of spec section 8 reads the document back); a
`TableStats` object is decoded by looking up each of the 13 declared
field names and requiring an integer number. -/
def parseTableStats (j : JValue) : Option TableStats :=
  match j with
  | JValue.jobj fs => do
    let a1 ← getIntField fs "sequential_scans"
    let a2 ← getIntField fs "sequential_rows_read"
    let a3 ← getIntField fs "index_scans"
    let a4 ← getIntField fs "index_rows_fetched"
    let a5 ← getIntField fs "rows_inserted"
    let a6 ← getIntField fs "rows_updated"
    let a7 ← getIntField fs "rows_deleted"
    let a8 ← getIntField fs "live_rows"
    let a9 ← getIntField fs "dead_rows"
    let a10 ← getIntField fs "heap_blocks_read"
    let a11 ← getIntField fs "heap_blocks_hit"
    let a12 ← getIntField fs "index_blocks_read"
    let a13 ← getIntField fs "index_blocks_hit"
    pure ⟨a1, a2, a3, a4, a5, a6, a7, a8, a9, a10, a11, a12, a13⟩
  | _ => none

/-- Modelled from the spec: decoding the members of the serialized map
one by one; any non-conforming member fails the whole parse. -/
def parseEntries : List (String × JValue) → Option (List (String × TableStats))
  | [] => some []
  | p :: rest => do
    let t ← parseTableStats p.2
    let restm ← parseEntries rest
    pure ((p.1, t) :: restm)

/-- Modelled from the spec: decoding the serialized table map back into
a keyed collection, member by member. -/
def parseTableMap (j : JValue) : Option (List (String × TableStats)) :=
  match j with
  | JValue.jobj fs => parseEntries fs
  | _ => none

/-! ### Concrete fixtures -/

/-- A source answering every fixed query with one non-NULL zero row. -/
def okSource : SpiSource :=
  ⟨fun _ => Except.ok [some 0], fun _ => Except.ok [some 0]⟩

/-- A source on which every query fails to execute (permission revoked
mid-session). -/
def badSource : SpiSource :=
  ⟨fun _ => Except.error SpiError.queryFailed,
   fun _ => Except.error SpiError.queryFailed⟩

/-- A source reporting 10 total, 3 active and 7 idle connections, and
zero everywhere else. -/
def connSource : SpiSource :=
  ⟨fun q =>
    match q with
    | DbQuery.totalConnections => Except.ok [some 10]
    | DbQuery.activeConnections => Except.ok [some 3]
    | DbQuery.idleConnections => Except.ok [some 7]
    | _ => Except.ok [some 0],
   fun _ => Except.ok [some 0]⟩

/-- A pg_stat_database row with 40 commits, 2 rollbacks and zero
everywhere else. -/
def xactRow : PgStatDatabaseRow :=
  ⟨some 40, some 2, some 0, some 0, some 0, some 0, some 0, some 0,
   some 0, some 0, some 0, some 0, some 0, some 0⟩

/-- An instrumentation state with no sessions and the `xactRow`
statistics row. -/
def xactState : PgState := ⟨[], some xactRow⟩

/-- The spec section 8 scenario row: schema app, table events,
n_live_tup 1000, n_dead_tup 50, heap_blks_hit NULL, other counters 0. -/
def eventsRow : TableRow :=
  ⟨some "app", some "events", some 0, some 0, some 0, some 0, some 0,
   some 0, some 0, some 1000, some 50, some 0, none, some 0, some 0⟩

/-- A pg_stat_user_tables row for public.orders with 5 sequential scans
and all other counters 0. -/
def ordersRow : TableRow :=
  ⟨some "public", some "orders", some 5, some 0, some 0, some 0, some 0,
   some 0, some 0, some 0, some 0, some 0, some 0, some 0, some 0⟩

/-- A pg_stat_user_tables row for public.users with all counters 0. -/
def usersRow : TableRow :=
  ⟨some "public", some "users", some 0, some 0, some 0, some 0, some 0,
   some 0, some 0, some 0, some 0, some 0, some 0, some 0, some 0⟩

/-- The snapshot decoded from `ordersRow`. -/
def ordersStats : TableStats := ⟨5, 0, 0, 0, 0, 0, 0, 0, 0, 0, 0, 0, 0⟩

/-- The snapshot decoded from `usersRow`. -/
def usersStats : TableStats := ⟨0, 0, 0, 0, 0, 0, 0, 0, 0, 0, 0, 0, 0⟩

/-! ### Helper lemmas -/

/-- Inversion for a successful `Except` bind. -/
theorem bind_ok {ε α β : Type} {x : Except ε α} {f : α → Except ε β} {b : β}
    (h : x >>= f = Except.ok b) : ∃ a, x = Except.ok a ∧ f a = Except.ok b := by
  cases x with
  | error e => exact absurd h (by simp [Bind.bind, Except.bind])
  | ok a => exact ⟨a, rfl, h⟩

/-- A successful database snapshot pins every field to its extractor's
successful result (and the timestamp to the recorded clock). -/
theorem collect_db_ok_elim {src : SpiSource} {now : Nat} {s : DatabaseStats}
    (h : collect_database_stats src now = Except.ok s) :
    s.timestamp = now ∧
    query_single_value (src.intq DbQuery.totalConnections) = Except.ok s.total_connections ∧
    query_single_value (src.intq DbQuery.activeConnections) = Except.ok s.active_connections ∧
    query_single_value (src.intq DbQuery.idleConnections) = Except.ok s.idle_connections ∧
    query_single_value (src.intq DbQuery.totalTransactions) = Except.ok s.total_transactions ∧
    query_single_value (src.intq DbQuery.commits) = Except.ok s.commits ∧
    query_single_value (src.intq DbQuery.rollbacks) = Except.ok s.rollbacks ∧
    query_single_value (src.intq DbQuery.blocksRead) = Except.ok s.blocks_read ∧
    query_single_value (src.intq DbQuery.blocksHit) = Except.ok s.blocks_hit ∧
    query_single_value (src.intq DbQuery.tuplesReturned) = Except.ok s.tuples_returned ∧
    query_single_value (src.intq DbQuery.tuplesFetched) = Except.ok s.tuples_fetched ∧
    query_single_value (src.intq DbQuery.tuplesInserted) = Except.ok s.tuples_inserted ∧
    query_single_value (src.intq DbQuery.tuplesUpdated) = Except.ok s.tuples_updated ∧
    query_single_value (src.intq DbQuery.tuplesDeleted) = Except.ok s.tuples_deleted ∧
    query_single_value (src.intq DbQuery.tempFiles) = Except.ok s.temp_files ∧
    query_single_value (src.intq DbQuery.tempBytes) = Except.ok s.temp_bytes ∧
    query_single_value (src.intq DbQuery.deadlocks) = Except.ok s.deadlocks ∧
    query_single_value_float (src.floatq FloatQuery.blockReadTime) = Except.ok s.block_read_time ∧
    query_single_value_float (src.floatq FloatQuery.blockWriteTime) = Except.ok s.block_write_time := by
  rw [collect_database_stats] at h
  obtain ⟨v1, e1, h⟩ := bind_ok h
  obtain ⟨v2, e2, h⟩ := bind_ok h
  obtain ⟨v3, e3, h⟩ := bind_ok h
  obtain ⟨v4, e4, h⟩ := bind_ok h
  obtain ⟨v5, e5, h⟩ := bind_ok h
  obtain ⟨v6, e6, h⟩ := bind_ok h
  obtain ⟨v7, e7, h⟩ := bind_ok h
  obtain ⟨v8, e8, h⟩ := bind_ok h
  obtain ⟨v9, e9, h⟩ := bind_ok h
  obtain ⟨v10, e10, h⟩ := bind_ok h
  obtain ⟨v11, e11, h⟩ := bind_ok h
  obtain ⟨v12, e12, h⟩ := bind_ok h
  obtain ⟨v13, e13, h⟩ := bind_ok h
  obtain ⟨v14, e14, h⟩ := bind_ok h
  obtain ⟨v15, e15, h⟩ := bind_ok h
  obtain ⟨v16, e16, h⟩ := bind_ok h
  obtain ⟨v17, e17, h⟩ := bind_ok h
  obtain ⟨v18, e18, h⟩ := bind_ok h
  cases Except.ok.inj h
  exact ⟨rfl, e1, e2, e3, e4, e5, e6, e7, e8, e9, e10, e11, e12, e13, e14,
    e15, e16, e17, e18⟩

/-- A successful scalar extraction means the query itself executed. -/
theorem query_single_value_ok_source {resp : Except SpiError (List (Option Int))}
    {v : Int} (h : query_single_value resp = Except.ok v) :
    ∃ rows, resp = Except.ok rows := by
  cases resp with
  | error e => exact absurd h (by simp [query_single_value])
  | ok rows => exact ⟨rows, rfl⟩

/-- A successful float extraction means the query itself executed. -/
theorem query_single_value_float_ok_source {resp : Except SpiError (List (Option Rat))}
    {v : Rat} (h : query_single_value_float resp = Except.ok v) :
    ∃ rows, resp = Except.ok rows := by
  cases resp with
  | error e => exact absurd h (by simp [query_single_value_float])
  | ok rows => exact ⟨rows, rfl⟩

/-- An entry of the map after an insertion was already present or is the
inserted pair. -/
theorem mem_insertMap {m : List (String × TableStats)} {k : String}
    {v : TableStats} {p : String × TableStats} (h : p ∈ insertMap m k v) :
    p ∈ m ∨ p = (k, v) := by
  unfold insertMap at h
  split at h
  · obtain ⟨q, hq, hfq⟩ := List.mem_map.mp h
    by_cases hk : q.1 == k
    · right; rw [if_pos hk] at hfq; exact hfq.symm
    · left; rw [if_neg hk] at hfq; exact hfq ▸ hq
  · rcases List.mem_append.mp h with h | h
    · exact Or.inl h
    · exact Or.inr (List.mem_singleton.mp h)

/-- The key list after an insertion: unchanged on replacement, extended
by the new key otherwise. -/
theorem insertMap_fst (m : List (String × TableStats)) (k : String)
    (v : TableStats) :
    (insertMap m k v).map Prod.fst =
      if m.any (fun p => p.1 == k) then m.map Prod.fst
      else m.map Prod.fst ++ [k] := by
  unfold insertMap
  split
  · rw [List.map_map]
    refine List.map_congr_left (fun q _ => ?_)
    by_cases hk : q.1 == k
    · simp only [Function.comp_apply, if_pos hk]
      exact (eq_of_beq hk).symm
    · simp only [Function.comp_apply, if_neg hk]
  · simp

/-- Insertion preserves distinctness of the key list. -/
theorem insertMap_nodup {m : List (String × TableStats)} {k : String}
    {v : TableStats} (hm : (m.map Prod.fst).Nodup) :
    ((insertMap m k v).map Prod.fst).Nodup := by
  rw [insertMap_fst]
  split
  · exact hm
  · next hany =>
    rw [List.nodup_append]
    refine ⟨hm, List.nodup_singleton k, ?_⟩
    intro a ha hak
    rw [List.mem_singleton] at hak
    subst hak
    obtain ⟨q, hq, hq1⟩ := List.mem_map.mp ha
    exact hany (List.any_eq_true.mpr ⟨q, hq, by simp [hq1]⟩)

/-- The row loop preserves distinctness of the key list. -/
theorem buildTableMap_nodup :
    ∀ (rows : List TableRow) (m m' : List (String × TableStats)),
      (m.map Prod.fst).Nodup → buildTableMap rows m = Except.ok m' →
      (m'.map Prod.fst).Nodup := by
  intro rows
  induction rows with
  | nil =>
    intro m m' hm h
    cases Except.ok.inj h
    exact hm
  | cons row rest ih =>
    intro m m' hm h
    unfold buildTableMap at h
    cases hd : decodeTableRow row with
    | error e => rw [hd] at h; exact absurd h (by simp)
    | ok kv =>
      obtain ⟨k, v⟩ := kv
      rw [hd] at h
      exact ih _ _ (insertMap_nodup hm) h

/-- Every entry of the built map stems from the initial map or from a
successfully decoded input row. -/
theorem buildTableMap_mem :
    ∀ (rows : List TableRow) (m m' : List (String × TableStats)),
      buildTableMap rows m = Except.ok m' →
      ∀ p ∈ m', p ∈ m ∨
        ∃ row ∈ rows, ∃ t, decodeTableRow row = Except.ok (p.1, t) := by
  intro rows
  induction rows with
  | nil =>
    intro m m' h p hp
    cases Except.ok.inj h
    exact Or.inl hp
  | cons row rest ih =>
    intro m m' h p hp
    unfold buildTableMap at h
    cases hd : decodeTableRow row with
    | error e => rw [hd] at h; exact absurd h (by simp)
    | ok kv =>
      obtain ⟨k, v⟩ := kv
      rw [hd] at h
      rcases ih _ _ h p hp with hin | ⟨r, hr, t, ht⟩
      · rcases mem_insertMap hin with hin | rfl
        · exact Or.inl hin
        · exact Or.inr ⟨row, List.mem_cons_self _ _, v, hd⟩
      · exact Or.inr ⟨r, List.mem_cons_of_mem _ hr, t, ht⟩

/-- A successful row decode exposes the composite-key shape
schema ++ "." ++ table. -/
theorem decodeTableRow_key {row : TableRow} {k : String} {t : TableStats}
    (h : decodeTableRow row = Except.ok (k, t)) :
    ∃ s n, row.schemaname = some s ∧ row.relname = some n ∧
      k = s ++ "." ++ n := by
  unfold decodeTableRow at h
  split at h
  · next s n a1 a2 a3 a4 a5 a6 a7 a8 a9 a10 a11 a12 a13
      h1 h2 h3 h4 h5 h6 h7 h8 h9 h10 h11 h12 h13 h14 h15 =>
    exact ⟨s, n, h1, h2, (Prod.mk.injEq .. ▸ Except.ok.inj h).1.symm⟩
  · exact absurd h (by simp)

/-- In a map with distinct keys each key determines its value. -/
theorem nodup_keys_unique_value :
    ∀ (m : List (String × TableStats)), (m.map Prod.fst).Nodup →
      ∀ k v1 v2, (k, v1) ∈ m → (k, v2) ∈ m → v1 = v2 := by
  intro m
  induction m with
  | nil => intro _ k v1 v2 h1; exact absurd h1 (List.not_mem_nil _)
  | cons q rest ih =>
    intro hm k v1 v2 h1 h2
    rw [List.map_cons, List.nodup_cons] at hm
    rcases List.mem_cons.mp h1 with h1 | h1 <;>
      rcases List.mem_cons.mp h2 with h2 | h2
    · rw [← h2] at h1; exact (Prod.mk.injEq .. ▸ h1).2
    · exact absurd (List.mem_map.mpr ⟨(k, v2), h2, by rw [← h1]⟩) hm.1
    · exact absurd (List.mem_map.mpr ⟨(k, v1), h1, by rw [← h2]⟩) hm.1
    · exact ih hm.2 k v1 v2 h1 h2

/-- Decoding a serialized `TableStats` object recovers the record. -/
theorem parseTableStats_serialize (t : TableStats) :
    parseTableStats (serializeTableStats t) = some t := by
  simp [parseTableStats, serializeTableStats, getIntField, List.lookup]

/-- Decoding the serialized map recovers every entry in order. -/
theorem parseTableMap_serialize (m : List (String × TableStats)) :
    parseTableMap (serializeTableMap m) = some m := by
  unfold parseTableMap serializeTableMap
  induction m with
  | nil => rfl
  | cons p rest ih =>
    simp only [List.map_cons, parseEntries, parseTableStats_serialize,
      Option.bind_some] at *
    simp [ih]

/-! ### Claims -/

/-- C1, counterexample: the claim asserts that on a zero-row result the
scalar extractors return the type's zero and never signal an error; in
fact `first().get_one()` on an empty result table yields
`Err(InvalidPosition)` and the `.unwrap()` panics, so both extractors
signal an error rather than returning zero. -/
theorem c1_counterexample :
    query_single_value (Except.ok ([] : List (Option Int))) =
      Except.error SpiError.invalidPosition ∧
    query_single_value_float (Except.ok ([] : List (Option Rat))) =
      Except.error SpiError.invalidPosition :=
  ⟨rfl, rfl⟩

/-- C1 (amended): when the source returns a row whose targeted column
value is NULL, `query_single_value` / `query_single_value_float` return
the type's zero value (0 resp. 0.0) without signalling an error; when the
source returns zero rows they do not return zero but fail with an
invalid-position error. -/
theorem c1_theorem (rest : List (Option Int)) (restF : List (Option Rat)) :
    query_single_value (Except.ok ((none : Option Int) :: rest)) =
      Except.ok 0 ∧
    query_single_value_float (Except.ok ((none : Option Rat) :: restF)) =
      Except.ok 0 ∧
    query_single_value (Except.ok ([] : List (Option Int))) =
      Except.error SpiError.invalidPosition ∧
    query_single_value_float (Except.ok ([] : List (Option Rat))) =
      Except.error SpiError.invalidPosition :=
  ⟨rfl, rfl, rfl, rfl⟩

/-- C2, code bug: on the spec's own scenario row (n_live_tup 1000,
n_dead_tup 50, heap_blks_hit NULL) the claim requires a snapshot with
heap_blocks_hit 0; the loop body reads every counter with
`.unwrap().unwrap()`, so the NULL column panics and the whole call
aborts instead of normalizing to zero. -/
theorem c2_theorem :
    collect_table_stats (Except.ok [eventsRow]) =
      Except.error SpiError.nullField :=
  rfl

/-- C3: if any underlying query fails to execute, the whole operation
fails: a failing fixed query makes `collect_database_stats` surface an
error (no snapshot), and a failing per-table query makes
`collect_table_stats` surface that error (no partial map). -/
theorem c3_theorem (src : SpiSource) (now : Nat) (e : SpiError)
    (resp : Except SpiError (List TableRow))
    (hdb : (∃ q, src.intq q = Except.error e) ∨
      (∃ q, src.floatq q = Except.error e))
    (ht : resp = Except.error e) :
    (∃ e2, collect_database_stats src now = Except.error e2) ∧
    collect_table_stats resp = Except.error e := by
  constructor
  · cases hc : collect_database_stats src now with
    | error e2 => exact ⟨e2, rfl⟩
    | ok s =>
      exfalso
      obtain ⟨-, q1, q2, q3, q4, q5, q6, q7, q8, q9, q10, q11, q12, q13,
        q14, q15, q16, f1, f2⟩ := collect_db_ok_elim hc
      rcases hdb with ⟨q, hq⟩ | ⟨q, hq⟩
      · cases q with
        | totalConnections =>
          obtain ⟨rows, hr⟩ := query_single_value_ok_source q1
          rw [hr] at hq; exact Except.noConfusion hq
        | activeConnections =>
          obtain ⟨rows, hr⟩ := query_single_value_ok_source q2
          rw [hr] at hq; exact Except.noConfusion hq
        | idleConnections =>
          obtain ⟨rows, hr⟩ := query_single_value_ok_source q3
          rw [hr] at hq; exact Except.noConfusion hq
        | totalTransactions =>
          obtain ⟨rows, hr⟩ := query_single_value_ok_source q4
          rw [hr] at hq; exact Except.noConfusion hq
        | commits =>
          obtain ⟨rows, hr⟩ := query_single_value_ok_source q5
          rw [hr] at hq; exact Except.noConfusion hq
        | rollbacks =>
          obtain ⟨rows, hr⟩ := query_single_value_ok_source q6
          rw [hr] at hq; exact Except.noConfusion hq
        | blocksRead =>
          obtain ⟨rows, hr⟩ := query_single_value_ok_source q7
          rw [hr] at hq; exact Except.noConfusion hq
        | blocksHit =>
          obtain ⟨rows, hr⟩ := query_single_value_ok_source q8
          rw [hr] at hq; exact Except.noConfusion hq
        | tuplesReturned =>
          obtain ⟨rows, hr⟩ := query_single_value_ok_source q9
          rw [hr] at hq; exact Except.noConfusion hq
        | tuplesFetched =>
          obtain ⟨rows, hr⟩ := query_single_value_ok_source q10
          rw [hr] at hq; exact Except.noConfusion hq
        | tuplesInserted =>
          obtain ⟨rows, hr⟩ := query_single_value_ok_source q11
          rw [hr] at hq; exact Except.noConfusion hq
        | tuplesUpdated =>
          obtain ⟨rows, hr⟩ := query_single_value_ok_source q12
          rw [hr] at hq; exact Except.noConfusion hq
        | tuplesDeleted =>
          obtain ⟨rows, hr⟩ := query_single_value_ok_source q13
          rw [hr] at hq; exact Except.noConfusion hq
        | tempFiles =>
          obtain ⟨rows, hr⟩ := query_single_value_ok_source q14
          rw [hr] at hq; exact Except.noConfusion hq
        | tempBytes =>
          obtain ⟨rows, hr⟩ := query_single_value_ok_source q15
          rw [hr] at hq; exact Except.noConfusion hq
        | deadlocks =>
          obtain ⟨rows, hr⟩ := query_single_value_ok_source q16
          rw [hr] at hq; exact Except.noConfusion hq
      · cases q with
        | blockReadTime =>
          obtain ⟨rows, hr⟩ := query_single_value_float_ok_source f1
          rw [hr] at hq; exact Except.noConfusion hq
        | blockWriteTime =>
          obtain ⟨rows, hr⟩ := query_single_value_float_ok_source f2
          rw [hr] at hq; exact Except.noConfusion hq
  · rw [ht]; rfl

/-- C3 witness: on a source whose every query fails, the database
builder surfaces an error and the table builder propagates the failure
with no partial map. -/
theorem c3_witness :
    (∃ e2, collect_database_stats badSource 0 = Except.error e2) ∧
    collect_table_stats (Except.error SpiError.queryFailed) =
      Except.error SpiError.queryFailed :=
  c3_theorem badSource 0 SpiError.queryFailed
    (Except.error SpiError.queryFailed)
    (Or.inl ⟨DbQuery.totalConnections, rfl⟩) rfl

/-- C4: for every constructed snapshot record, the serialized document
carries every declared field — all 19 `DatabaseStats` fields and all 13
`TableStats` fields, under their declared names — and every field value
is a JSON number (never omitted, null or undefined). -/
theorem c4_theorem (ds : DatabaseStats) (ts : TableStats) :
    (serializeDatabaseStats ds).objFields.map Prod.fst =
      ["timestamp", "total_connections", "active_connections",
       "idle_connections", "total_transactions", "commits", "rollbacks",
       "blocks_read", "blocks_hit", "tuples_returned", "tuples_fetched",
       "tuples_inserted", "tuples_updated", "tuples_deleted",
       "temp_files", "temp_bytes", "deadlocks", "block_read_time",
       "block_write_time"] ∧
    ((serializeDatabaseStats ds).objFields.all
      (fun p => p.2.isNumeric)) = true ∧
    (serializeTableStats ts).objFields.map Prod.fst =
      ["sequential_scans", "sequential_rows_read", "index_scans",
       "index_rows_fetched", "rows_inserted", "rows_updated",
       "rows_deleted", "live_rows", "dead_rows", "heap_blocks_read",
       "heap_blocks_hit", "index_blocks_read", "index_blocks_hit"] ∧
    ((serializeTableStats ts).objFields.all
      (fun p => p.2.isNumeric)) = true :=
  ⟨rfl, rfl, rfl, rfl⟩

/-- C5: a successfully built table map has a duplicate-free key list,
every key is the composite string schema ++ "." ++ table of a source
row, and each key determines exactly one snapshot. -/
theorem c5_theorem (rows : List TableRow) (m : List (String × TableStats))
    (h : collect_table_stats (Except.ok rows) = Except.ok m) :
    (m.map Prod.fst).Nodup ∧
    (∀ p ∈ m, ∃ row ∈ rows, ∃ s n, row.schemaname = some s ∧
      row.relname = some n ∧ p.1 = s ++ "." ++ n) ∧
    (∀ k v1 v2, (k, v1) ∈ m → (k, v2) ∈ m → v1 = v2) := by
  have hb : buildTableMap rows [] = Except.ok m := h
  have hnd := buildTableMap_nodup rows [] m (by simp) hb
  refine ⟨hnd, ?_, nodup_keys_unique_value m hnd⟩
  intro p hp
  rcases buildTableMap_mem rows [] m hb p hp with hin | ⟨row, hr, t, ht⟩
  · exact absurd hin (List.not_mem_nil p)
  · obtain ⟨s, n, hs, hn, hk⟩ := decodeTableRow_key ht
    exact ⟨row, hr, s, n, hs, hn, hk⟩

/-- C5 witness: the two-row source yields the two-entry map keyed by
public.orders and public.users with the stated properties. -/
theorem c5_witness :
    (([("public.orders", ordersStats), ("public.users", usersStats)].map
      Prod.fst).Nodup ∧
    (∀ p ∈ [("public.orders", ordersStats), ("public.users", usersStats)],
      ∃ row ∈ [ordersRow, usersRow], ∃ s n, row.schemaname = some s ∧
        row.relname = some n ∧ p.1 = s ++ "." ++ n) ∧
    (∀ k v1 v2,
      (k, v1) ∈ [("public.orders", ordersStats), ("public.users", usersStats)] →
      (k, v2) ∈ [("public.orders", ordersStats), ("public.users", usersStats)] →
      v1 = v2)) :=
  c5_theorem [ordersRow, usersRow]
    [("public.orders", ordersStats), ("public.users", usersStats)] rfl

/-- C6: when the source lists zero user tables, `collect_table_stats`
returns the empty map, not an error. -/
theorem c6_theorem :
    collect_table_stats (Except.ok ([] : List TableRow)) =
      Except.ok [] :=
  rfl

/-- C7: the three connection-count fields are passed through unchanged:
a source reporting 10 total, 3 active and 7 idle connections yields a
snapshot with exactly those three values, with no recomputation. -/
theorem c7_theorem (src : SpiSource) (now : Nat) (s : DatabaseStats)
    (htot : src.intq DbQuery.totalConnections = Except.ok [some 10])
    (hact : src.intq DbQuery.activeConnections = Except.ok [some 3])
    (hidl : src.intq DbQuery.idleConnections = Except.ok [some 7])
    (h : collect_database_stats src now = Except.ok s) :
    s.total_connections = 10 ∧ s.active_connections = 3 ∧
      s.idle_connections = 7 := by
  obtain ⟨-, q1, q2, q3, -⟩ := collect_db_ok_elim h
  rw [htot] at q1
  rw [hact] at q2
  rw [hidl] at q3
  exact ⟨(Except.ok.inj q1).symm, (Except.ok.inj q2).symm,
    (Except.ok.inj q3).symm⟩

/-- C7 witness: the concrete 10/3/7 source produces exactly those three
field values. -/
theorem c7_witness :
    ((⟨0, 10, 3, 7, 0, 0, 0, 0, 0, 0, 0, 0, 0, 0, 0, 0, 0, 0, 0⟩ :
      DatabaseStats).total_connections = 10 ∧
    (⟨0, 10, 3, 7, 0, 0, 0, 0, 0, 0, 0, 0, 0, 0, 0, 0, 0, 0, 0⟩ :
      DatabaseStats).active_connections = 3 ∧
    (⟨0, 10, 3, 7, 0, 0, 0, 0, 0, 0, 0, 0, 0, 0, 0, 0, 0, 0, 0⟩ :
      DatabaseStats).idle_connections = 7) :=
  c7_theorem connSource 0 _ rfl rfl rfl rfl

/-- C8: serializing a table snapshot map and parsing the document back
yields a map with the same keys and identical field values for every
entry. -/
theorem c8_theorem (m : List (String × TableStats)) :
    parseTableMap (serializeTableMap m) = some m :=
  parseTableMap_serialize m

/-- C9: across two successful builds made at non-decreasing wall-clock
times, the later snapshot's timestamp is at least the earlier one's. -/
theorem c9_theorem (src1 src2 : SpiSource) (t1 t2 : Nat)
    (s1 s2 : DatabaseStats)
    (h1 : collect_database_stats src1 t1 = Except.ok s1)
    (h2 : collect_database_stats src2 t2 = Except.ok s2)
    (hw : t1 ≤ t2) : s1.timestamp ≤ s2.timestamp := by
  rw [(collect_db_ok_elim h1).1, (collect_db_ok_elim h2).1]
  exact hw

/-- C9 witness: two builds at clock seconds 1 and 2 yield non-decreasing
timestamps. -/
theorem c9_witness :
    (⟨1, 0, 0, 0, 0, 0, 0, 0, 0, 0, 0, 0, 0, 0, 0, 0, 0, 0, 0⟩ :
      DatabaseStats).timestamp ≤
    (⟨2, 0, 0, 0, 0, 0, 0, 0, 0, 0, 0, 0, 0, 0, 0, 0, 0, 0, 0⟩ :
      DatabaseStats).timestamp :=
  c9_theorem okSource okSource 1 2 _ _ rfl rfl (by decide)

/-- C10: when the total-transactions, commits and rollbacks queries
observe the same xact_commit value c and xact_rollback value r, the
snapshot satisfies total_transactions = commits + rollbacks, because the
total's query computes xact_commit + xact_rollback. -/
theorem c10_theorem (obs : DbQuery → PgState) (obsF : FloatQuery → PgState)
    (now : Nat) (s : DatabaseStats) (c r : Int)
    (r1 r2 r3 : PgStatDatabaseRow)
    (h1 : (obs DbQuery.totalTransactions).statDb = some r1)
    (h1c : r1.xact_commit = some c) (h1r : r1.xact_rollback = some r)
    (h2 : (obs DbQuery.commits).statDb = some r2)
    (h2c : r2.xact_commit = some c)
    (h3 : (obs DbQuery.rollbacks).statDb = some r3)
    (h3r : r3.xact_rollback = some r)
    (h : collect_database_stats (honestSource obs obsF) now = Except.ok s) :
    s.total_transactions = s.commits + s.rollbacks := by
  obtain ⟨-, -, -, -, q4, q5, q6, -⟩ := collect_db_ok_elim h
  simp only [honestSource, evalIntQuery, dbRowSelect, h1, h1c, h1r, h2,
    h2c, h3, h3r, optAdd, query_single_value, get_one, Option.getD,
    Except.ok.injEq] at q4 q5 q6
  rw [← q4, ← q5, ← q6]

/-- C10 witness: a consistent source with 40 commits and 2 rollbacks
yields total_transactions 42 = commits 40 + rollbacks 2. -/
theorem c10_witness :
    (⟨0, 0, 0, 0, 42, 40, 2, 0, 0, 0, 0, 0, 0, 0, 0, 0, 0, 0, 0⟩ :
      DatabaseStats).total_transactions =
    (⟨0, 0, 0, 0, 42, 40, 2, 0, 0, 0, 0, 0, 0, 0, 0, 0, 0, 0, 0⟩ :
      DatabaseStats).commits +
    (⟨0, 0, 0, 0, 42, 40, 2, 0, 0, 0, 0, 0, 0, 0, 0, 0, 0, 0, 0⟩ :
      DatabaseStats).rollbacks :=
  c10_theorem (fun _ => xactState) (fun _ => xactState) 0 _ 40 2
    xactRow xactRow xactRow rfl rfl rfl rfl rfl rfl rfl rfl

end PgSweep
